import Mathlib

/-!
Formal model of the push-to-talk capture session and daemon manager of the
whisper-stt repository.

The definitions below are a shallow embedding of the Python source:
  * `SessionState`, `sessionStep`, `sessionRun` embed
    `RealtimeTranscriber` (src/whisper_stt/realtime.py): the in-memory flags
    `_running`, `_recording`, `_recording_start_time`, the audio chunk
    buffer, the status-file writes and the buffers handed to the
    transcription worker.
  * `OsState`, `is_running`, `get_pid`, `stop_daemon`, `run_daemon` embed
    `DaemonManager` and `run_daemon` (src/whisper_stt/service/daemon.py).
    The operating-system call `os.kill` is modelled by `kill0`: delivery
    succeeds on a live, permitted pid, raises `ProcessLookupError` on a dead
    pid and `PermissionError` on a live pid the caller may not signal.
  * `type_text` and `type_key` embed `WaylandTyper` (src/whisper_stt/typing.py)
    with the subprocess call abstracted as a function argument; each returns
    the trace of subprocess invocations together with the boolean result.
  * `transcribe_buffer` embeds `RealtimeTranscriber._transcribe_buffer`.

Audio samples are modelled as integers (the float payload is opaque to all
of the logic under study), timestamps as naturals, and JSON records as
association lists of `JsonVal`.
-/

/-- A JSON value as written into the status file. -/
inductive JsonVal where
  | null
  | bool (b : Bool)
  | num (n : Int)
  | str (s : String)
  deriving DecidableEq

/-- A JSON object: fields in write order. -/
abbrev JsonObj := List (String × JsonVal)

/-- In-memory state of `RealtimeTranscriber` plus the observable effects the
claims are about: the status file content, the buffers handed to the
transcription worker, and counters of engine loads, typer creations and
hotkey registrations (each incremented by the corresponding action in
`start()`). -/
structure SessionState where
  model_name : String
  pid : Nat
  running : Bool
  recording : Bool
  recording_start_time : Option Nat
  audio_chunks : List (List Int)
  transcribe_calls : List (List Int)
  status_file : Option JsonObj
  stream_open : Bool
  engine_loads : Nat
  typer_creations : Nat
  hotkey_registrations : Nat
  hotkey_active : Bool
  deriving DecidableEq

/-- The JSON object built by `RealtimeTranscriber._write_status` (lines 65-77):
all five fields, in source order. -/
def sessionStatusJson (st : SessionState) : JsonObj :=
  [("recording", JsonVal.bool st.recording),
   ("running", JsonVal.bool st.running),
   ("model", JsonVal.str st.model_name),
   ("pid", JsonVal.num (Int.ofNat st.pid)),
   ("recording_start_time",
     match st.recording_start_time with
     | some t => JsonVal.num (Int.ofNat t)
     | none => JsonVal.null)]

/-- `RealtimeTranscriber._write_status`: overwrite the status file. -/
def write_status (st : SessionState) : SessionState :=
  { st with status_file := some (sessionStatusJson st) }

/-- `RealtimeTranscriber._clear_status`: delete the status file. -/
def clear_status (st : SessionState) : SessionState :=
  { st with status_file := none }

/-- `RealtimeTranscriber.start` (lines 85-106): no-op when already running;
otherwise load the engine, create the typer, set `running`, register the
hotkey listener and write the status file. -/
def start_session (st : SessionState) : SessionState :=
  if st.running then st
  else
    write_status
      { st with
        engine_loads := st.engine_loads + 1
        typer_creations := st.typer_creations + 1
        running := true
        hotkey_registrations := st.hotkey_registrations + 1
        hotkey_active := true }

/-- `RealtimeTranscriber._start_recording` (lines 140-154): clear the chunk
buffer and open the audio stream. -/
def start_recording (st : SessionState) : SessionState :=
  { st with audio_chunks := [], stream_open := true }

/-- `RealtimeTranscriber._stop_recording` (lines 156-179): close the stream,
swap the chunk buffer out, and when `transcribe` is set and the drained
buffer is non-empty hand its concatenation to the transcription worker. -/
def stop_recording (transcribe : Bool) (st : SessionState) : SessionState :=
  let st1 := { st with stream_open := false }
  let chunks := st1.audio_chunks
  let st2 := { st1 with audio_chunks := [] }
  if !transcribe || chunks.isEmpty then st2
  else { st2 with transcribe_calls := st2.transcribe_calls ++ [chunks.flatten] }

/-- `RealtimeTranscriber._on_toggle` (lines 127-138): set `recording` and
`recording_start_time`, write the status file, then start or stop recording. -/
def on_toggle (b : Bool) (now : Nat) (st : SessionState) : SessionState :=
  let st1 := { st with
    recording := b
    recording_start_time := if b then some now else none }
  let st2 := write_status st1
  if b then start_recording st2 else stop_recording true st2

/-- `RealtimeTranscriber.stop` (lines 108-125): clear `running`, stop the
hotkey listener, force-close a recording without transcribing, delete the
status file. Note the source never resets `_recording` or
`_recording_start_time` here. -/
def stop_session (st : SessionState) : SessionState :=
  let st1 := { st with running := false, hotkey_active := false }
  let st2 := if st1.recording then stop_recording false st1 else st1
  clear_status st2

/-- `RealtimeTranscriber._audio_callback` (lines 181-191): append the chunk
to the buffer in arrival order. -/
def audio_callback (data : List Int) (st : SessionState) : SessionState :=
  { st with audio_chunks := st.audio_chunks ++ [data] }

/-- The external events driving a capture session: lifecycle calls, hotkey
toggles (carrying the boolean from the listener and the current time) and
audio-chunk deliveries. -/
inductive Event where
  | start
  | stop
  | toggle (isRecording : Bool) (now : Nat)
  | chunk (data : List Int)
  deriving DecidableEq

/-- Dispatch one event to the corresponding source method. -/
def sessionStep (st : SessionState) : Event → SessionState
  | Event.start => start_session st
  | Event.stop => stop_session st
  | Event.toggle b now => on_toggle b now st
  | Event.chunk d => audio_callback d st

/-- Run a sequence of events from a state. -/
def sessionRun (st : SessionState) (es : List Event) : SessionState :=
  es.foldl sessionStep st

/-- The freshly constructed `RealtimeTranscriber` (lines 40-63). -/
def initState (model : String) (pid : Nat) : SessionState :=
  { model_name := model
    pid := pid
    running := false
    recording := false
    recording_start_time := none
    audio_chunks := []
    transcribe_calls := []
    status_file := none
    stream_open := false
    engine_loads := 0
    typer_creations := 0
    hotkey_registrations := 0
    hotkey_active := false }

/-- The toggle boolean carried by an event, when it is a toggle. -/
def toggleOf : Event → Option Bool
  | Event.toggle b _ => some b
  | _ => none

/-- The boolean set by the last toggle event of the sequence, if any. -/
def lastToggle : List Event → Option Bool
  | [] => none
  | e :: es =>
    match lastToggle es with
    | some b => some b
    | none => toggleOf e

/-- Whitespace as stripped by Python `str.strip()` (space, tab, newline,
carriage return, vertical tab, form feed). -/
def isPySpace (c : Char) : Bool :=
  c = ' ' || c = '\t' || c = '\n' || c = '\r' || c.toNat = 11 || c.toNat = 12

/-- Python `str.strip()`: drop leading and trailing whitespace. -/
def pyStrip (s : String) : String :=
  String.mk (((s.data.dropWhile isPySpace).reverse.dropWhile isPySpace).reverse)

/-- Value of a non-empty all-digit character list, else `none`. -/
def parseDigits : List Char → Option Nat
  | [] => none
  | cs =>
    if cs.all Char.isDigit then
      some (cs.foldl (fun a c => 10 * a + (c.toNat - 48)) 0)
    else none

/-- Python `int(s)` on a decimal string: surrounding whitespace ignored,
optional sign, at least one digit; `none` models `ValueError`. -/
def parsePyInt (s : String) : Option Int :=
  match (pyStrip s).data with
  | '+' :: rest => (parseDigits rest).map Int.ofNat
  | '-' :: rest => (parseDigits rest).map (fun n => -(Int.ofNat n))
  | rest => (parseDigits rest).map Int.ofNat

/-- Outcome of `os.kill(pid, sig)`: delivered, `ProcessLookupError`, or
`PermissionError`. -/
inductive KillResult where
  | ok
  | noSuchProcess
  | notPermitted
  deriving DecidableEq

/-- The slice of operating-system state `DaemonManager` interacts with: the
PID file content (`none` when the file is missing) and, per pid, whether a
process with that pid is alive and whether this user may signal it. -/
structure OsState where
  pidFile : Option String
  live : Int → Bool
  permitted : Int → Bool

/-- Model of `os.kill(pid, sig)` against an `OsState`. -/
def kill0 (s : OsState) (pid : Int) : KillResult :=
  if s.live pid then
    if s.permitted pid then KillResult.ok else KillResult.notPermitted
  else KillResult.noSuchProcess

/-- `DaemonManager.is_running` (daemon.py lines 29-39): missing file means
false; `int(...)` failure, `ProcessLookupError` and `PermissionError` are
caught, the PID file is unlinked and false is returned; a delivered probe
means true. A total function: no exception escapes. -/
def is_running (s : OsState) : Bool × OsState :=
  match s.pidFile with
  | none => (false, s)
  | some content =>
    match parsePyInt (pyStrip content) with
    | none => (false, { s with pidFile := none })
    | some pid =>
      match kill0 s pid with
      | KillResult.ok => (true, s)
      | _ => (false, { s with pidFile := none })

/-- `DaemonManager.get_pid` (daemon.py lines 41-47): `none` on a missing
file or an unparsable integer (the file is left in place). -/
def get_pid (s : OsState) : Option Int :=
  match s.pidFile with
  | none => none
  | some content => parsePyInt (pyStrip content)

/-- `DaemonManager.stop_daemon` (daemon.py lines 71-81): false when no pid is
recorded; on `ProcessLookupError` the stale PID file is removed and false
returned; true when SIGTERM is delivered. An uncaught `PermissionError`
propagates, modelled by `Except.error`. -/
def stop_daemon (s : OsState) : Except Unit (Bool × OsState) :=
  match get_pid s with
  | none => Except.ok (false, s)
  | some pid =>
    match kill0 s pid with
    | KillResult.ok => Except.ok (true, s)
    | KillResult.noSuchProcess => Except.ok (false, { s with pidFile := none })
    | KillResult.notPermitted => Except.error ()

/-- The JSON object built by `DaemonManager.write_status` (daemon.py lines
55-61): three fields only, in source order. -/
def daemon_write_status (recording : Bool) (model : String) (pid : Nat) : JsonObj :=
  [("recording", JsonVal.bool recording),
   ("model", JsonVal.str model),
   ("pid", JsonVal.num (Int.ofNat pid))]

/-- World state threaded through `run_daemon`: OS state, the daemon-side
status file, whether the capture session was started, and whether
`transcriber.start()` would raise (a fatal setup error). -/
structure DaemonWorld where
  os : OsState
  statusFile : Option JsonObj
  sessionStarted : Bool
  startRaises : Bool

/-- `run_daemon` (daemon.py lines 88-127) up to its blocking point: when a
live daemon is recorded, print and return exit code 1; otherwise write the
PID file and the initial status record and start the session. `none` as the
exit code models blocking in `signal.pause()`; a setup exception leads to
cleanup and exit code 1. -/
def run_daemon (model : String) (pid : Nat) (w : DaemonWorld) : Option Nat × DaemonWorld :=
  match is_running w.os with
  | (true, os1) => (some 1, { w with os := os1 })
  | (false, os1) =>
    let os2 := { os1 with pidFile := some (toString pid) }
    let w2 := { w with
      os := os2
      statusFile := some (daemon_write_status false model pid) }
    if w2.startRaises then
      (some 1, { w2 with os := { os2 with pidFile := none }, statusFile := none })
    else
      (none, { w2 with sessionStarted := true })

/-- Outcome of `subprocess.run`: completed with a return code, timed out
(`subprocess.TimeoutExpired`), or raised some other exception. -/
inductive SubprocResult where
  | completed (returncode : Int)
  | timedOut
  | raised
  deriving DecidableEq

/-- The command line `WaylandTyper.type_text` builds (typing.py lines 59-65). -/
def typeTextCmd (wtypePath : String) (delay_ms : Int) (text : String) : List String :=
  [wtypePath] ++ (if delay_ms > 0 then ["-d", toString delay_ms] else []) ++ ["--", text]

/-- `WaylandTyper.type_text` (typing.py lines 46-85), with `subprocess.run`
abstracted as `runProc cmd timeout`. Returns the boolean result together
with the trace of `(command, timeout)` subprocess invocations. Empty text
returns true without any subprocess call; a non-zero return code, a
timeout, and any other exception all yield false; no exception escapes. -/
def type_text (runProc : List String → Nat → SubprocResult)
    (wtypePath : String) (delay_ms : Int) (text : String) :
    Bool × List (List String × Nat) :=
  if text = "" then (true, [])
  else
    let cmd := typeTextCmd wtypePath delay_ms text
    let res :=
      match runProc cmd 10 with
      | SubprocResult.completed rc => if rc != 0 then false else true
      | SubprocResult.timedOut => false
      | SubprocResult.raised => false
    (res, [(cmd, 10)])

/-- `WaylandTyper.type_key` (typing.py lines 87-106): one subprocess call
with a 5-second timeout; true exactly when it completes with return code 0;
every exception is caught and yields false. -/
def type_key (runProc : List String → Nat → SubprocResult)
    (wtypePath : String) (key : String) :
    Bool × List (List String × Nat) :=
  let cmd := [wtypePath, "-k", key]
  let res :=
    match runProc cmd 5 with
    | SubprocResult.completed rc => rc == 0
    | SubprocResult.timedOut => false
    | SubprocResult.raised => false
  (res, [(cmd, 5)])

/-- Observable effects of one transcription worker run. -/
structure WorkerEffects where
  typed : List String
  callbacks : List String
  deriving DecidableEq

/-- `RealtimeTranscriber._transcribe_buffer` (realtime.py lines 193-210):
strip the engine's result text; when non-empty, type it with one trailing
space appended and report the stripped text to the optional callback;
when empty, do neither. -/
def transcribe_buffer (resultText : String) (hasTyper hasCallback : Bool) :
    WorkerEffects :=
  let text := pyStrip resultText
  if text = "" then { typed := [], callbacks := [] }
  else
    { typed := if hasTyper then [text ++ " "] else []
      callbacks := if hasCallback then [text] else [] }

/-- A status-file JSON object that has all five StatusRecord fields and
satisfies the recording-iff-start-time contract. -/
def GoodJson (j : JsonObj) : Prop :=
  (j.lookup "recording").isSome = true ∧
  (j.lookup "running").isSome = true ∧
  (j.lookup "model").isSome = true ∧
  (j.lookup "pid").isSome = true ∧
  (j.lookup "recording_start_time").isSome = true ∧
  (j.lookup "recording" = some (JsonVal.bool true) ↔
    j.lookup "recording_start_time" ≠ some JsonVal.null)

/-- The session-level state invariant: `recording_start_time` is set iff
`recording`, and any present status file is a well-formed snapshot. -/
def SInv (st : SessionState) : Prop :=
  st.recording_start_time.isSome = st.recording ∧
  ∀ j, st.status_file = some j → GoodJson j

lemma sessionStatusJson_good (st : SessionState)
    (h : st.recording_start_time.isSome = st.recording) :
    GoodJson (sessionStatusJson st) := by
  refine ⟨rfl, rfl, rfl, rfl, rfl, ?_⟩
  have hrec : (sessionStatusJson st).lookup "recording" =
      some (JsonVal.bool st.recording) := rfl
  have hrst : (sessionStatusJson st).lookup "recording_start_time" =
      some (match st.recording_start_time with
            | some t => JsonVal.num (Int.ofNat t)
            | none => JsonVal.null) := rfl
  rw [hrec, hrst]
  cases hr : st.recording_start_time with
  | none =>
    have hb : st.recording = false := by rw [← h, hr]; rfl
    simp [hb]
  | some t =>
    have hb : st.recording = true := by rw [← h, hr]; rfl
    simp [hb]

lemma sessionStep_recording (st : SessionState) (e : Event) :
    (sessionStep st e).recording = (toggleOf e).getD st.recording := by
  cases e with
  | start =>
    simp only [sessionStep, start_session, toggleOf, Option.getD]
    split <;> rfl
  | stop =>
    simp only [sessionStep, stop_session, stop_recording, clear_status, toggleOf, Option.getD]
    split <;> rfl
  | toggle b now =>
    cases b with
    | true => rfl
    | false =>
      have he : sessionStep st (Event.toggle false now) =
          stop_recording true
            (write_status { st with recording := false, recording_start_time := none }) := rfl
      rw [he]
      simp only [stop_recording]
      split <;> rfl
  | chunk d => rfl

lemma sessionStep_rst (st : SessionState) (e : Event) :
    (sessionStep st e).recording_start_time =
      (match e with
       | Event.toggle b now => if b then some now else none
       | _ => st.recording_start_time) := by
  cases e with
  | start =>
    simp only [sessionStep, start_session]
    split <;> rfl
  | stop =>
    simp only [sessionStep, stop_session, stop_recording, clear_status]
    split <;> rfl
  | toggle b now =>
    cases b with
    | true => rfl
    | false =>
      have he : sessionStep st (Event.toggle false now) =
          stop_recording true
            (write_status { st with recording := false, recording_start_time := none }) := rfl
      rw [he]
      simp only [stop_recording]
      split <;> rfl
  | chunk d => rfl

lemma sessionStep_SInv (st : SessionState) (e : Event) (h : SInv st) :
    SInv (sessionStep st e) := by
  obtain ⟨h1, h2⟩ := h
  have hA : (sessionStep st e).recording_start_time.isSome = (sessionStep st e).recording := by
    rw [sessionStep_recording, sessionStep_rst]
    cases e with
    | toggle b now => cases b <;> rfl
    | start => simpa [toggleOf] using h1
    | stop => simpa [toggleOf] using h1
    | chunk d => simpa [toggleOf] using h1
  refine ⟨hA, ?_⟩
  cases e with
  | start =>
    intro j hj
    by_cases hr : st.running
    · have he : sessionStep st Event.start = st := by
        simp [sessionStep, start_session, hr]
      rw [he] at hj
      exact h2 j hj
    · have he : (sessionStep st Event.start).status_file =
          some (sessionStatusJson
            { st with
              engine_loads := st.engine_loads + 1
              typer_creations := st.typer_creations + 1
              running := true
              hotkey_registrations := st.hotkey_registrations + 1
              hotkey_active := true }) := by
        simp [sessionStep, start_session, hr, write_status]
      rw [he] at hj
      obtain rfl := Option.some.inj hj
      exact sessionStatusJson_good _ h1
  | stop =>
    intro j hj
    have he : (sessionStep st Event.stop).status_file = none := rfl
    rw [he] at hj
    exact Option.noConfusion hj
  | toggle b now =>
    intro j hj
    cases b with
    | true =>
      have he : (sessionStep st (Event.toggle true now)).status_file =
          some (sessionStatusJson
            { st with recording := true, recording_start_time := some now }) := rfl
      rw [he] at hj
      obtain rfl := Option.some.inj hj
      exact sessionStatusJson_good _ rfl
    | false =>
      have hu : sessionStep st (Event.toggle false now) =
          stop_recording true
            (write_status { st with recording := false, recording_start_time := none }) := rfl
      have he : (sessionStep st (Event.toggle false now)).status_file =
          some (sessionStatusJson
            { st with recording := false, recording_start_time := none }) := by
        rw [hu]
        simp only [stop_recording]
        split <;> rfl
      rw [he] at hj
      obtain rfl := Option.some.inj hj
      exact sessionStatusJson_good _ rfl
  | chunk d =>
    intro j hj
    exact h2 j hj

lemma initState_SInv (m : String) (p : Nat) : SInv (initState m p) :=
  ⟨rfl, fun _ hj => Option.noConfusion hj⟩

lemma sessionRun_SInv (es : List Event) :
    ∀ st : SessionState, SInv st → SInv (sessionRun st es) := by
  induction es with
  | nil => intro st h; exact h
  | cons e es ih =>
    intro st h
    show SInv (sessionRun (sessionStep st e) es)
    exact ih _ (sessionStep_SInv st e h)

lemma sessionRun_recording (es : List Event) :
    ∀ st : SessionState,
      (sessionRun st es).recording = (lastToggle es).getD st.recording := by
  induction es with
  | nil => intro st; rfl
  | cons e es ih =>
    intro st
    show (sessionRun (sessionStep st e) es).recording = _
    rw [ih, sessionStep_recording]
    show (lastToggle es).getD ((toggleOf e).getD st.recording) =
      (match lastToggle es with
       | some b => some b
       | none => toggleOf e).getD st.recording
    cases hl : lastToggle es with
    | some b => rfl
    | none => rfl

lemma is_running_true_fix (s : OsState) (h : (is_running s).1 = true) :
    is_running s = (true, s) := by
  cases hf : s.pidFile with
  | none => simp [is_running, hf] at h
  | some c =>
    cases hp : parsePyInt (pyStrip c) with
    | none => simp [is_running, hf, hp] at h
    | some pid =>
      cases hk : kill0 s pid with
      | ok => simp [is_running, hf, hp, hk]
      | noSuchProcess => simp [is_running, hf, hp, hk] at h
      | notPermitted => simp [is_running, hf, hp, hk] at h

/-- Claim C1, counterexample: after the toggle sequence [toggle-on] followed
by `stop()`, the in-memory `recording` flag is still true (`stop()` never
resets it), while `running` is false — refuting both the claim's "after
`stop()` the session has `recording == false`" and the derived invariant
"`recording == true` implies `running == true`". -/
theorem C1_counterexample :
    (sessionRun (initState "turbo" 1) [Event.toggle true 0, Event.stop]).recording = true ∧
    (sessionRun (initState "turbo" 1) [Event.toggle true 0, Event.stop]).running = false :=
  ⟨rfl, rfl⟩

/-- Claim C1, amended: for every sequence of hotkey toggle events and
lifecycle calls on a capture session, the in-memory `recording` flag is true
iff the last toggle event set it true (`stop()` does not reset it), and
`recording_start_time` is set iff `recording` is true, in every reachable
state. -/
theorem C1_amended (m : String) (p : Nat) (es : List Event) :
    ((sessionRun (initState m p) es).recording = true ↔ lastToggle es = some true) ∧
    ((sessionRun (initState m p) es).recording_start_time.isSome = true ↔
      (sessionRun (initState m p) es).recording = true) := by
  constructor
  · rw [sessionRun_recording]
    show (lastToggle es).getD false = true ↔ _
    cases hl : lastToggle es with
    | none => simp
    | some b => cases b <;> simp
  · rw [(sessionRun_SInv es (initState m p) (initState_SInv m p)).1]

/-- Claim C2, counterexample: `DaemonManager.write_status(recording=True)`
produces a record with no `running` field and no `recording_start_time`
field while `recording` is true, so the five-field shape and the
recording-iff-start-time property fail for the daemon-side writer. -/
theorem C2_counterexample :
    (daemon_write_status true "turbo" 1).lookup "running" = none ∧
    (daemon_write_status true "turbo" 1).lookup "recording_start_time" = none ∧
    (daemon_write_status true "turbo" 1).lookup "recording" = some (JsonVal.bool true) :=
  ⟨rfl, rfl, rfl⟩

/-- Claim C2, amended: every status record written by the session writer
(`RealtimeTranscriber._write_status`) contains all five StatusRecord fields
and satisfies `recording == true` iff `recording_start_time != null`;
the daemon writer (`DaemonManager.write_status`) instead writes exactly the
three fields `recording`, `model`, `pid`. -/
theorem C2_amended (m : String) (p : Nat) (es : List Event) (j : JsonObj)
    (h : (sessionRun (initState m p) es).status_file = some j) :
    GoodJson j ∧
    ∀ r mo q, (daemon_write_status r mo q).map Prod.fst = ["recording", "model", "pid"] :=
  ⟨(sessionRun_SInv es (initState m p) (initState_SInv m p)).2 j h,
   fun _ _ _ => rfl⟩

theorem C2_witness :
    GoodJson (sessionStatusJson (sessionRun (initState "turbo" 1) [Event.start])) ∧
    (daemon_write_status true "turbo" 1).map Prod.fst = ["recording", "model", "pid"] := by
  have h := C2_amended "turbo" 1 [Event.start]
    (sessionStatusJson (sessionRun (initState "turbo" 1) [Event.start])) rfl
  exact ⟨h.1, h.2 true "turbo" 1⟩

/-- Claim C3: starting a session, toggling recording on, appending three
1024-sample chunks and toggling off invokes the transcription worker exactly
once, with the single buffer being the 3072-sample concatenation of the
three chunks in arrival order. -/
theorem C3 (c1 c2 c3 : List Int)
    (h1 : c1.length = 1024) (h2 : c2.length = 1024) (h3 : c3.length = 1024) :
    (sessionRun (initState "turbo" 1)
        [Event.start, Event.toggle true 0, Event.chunk c1, Event.chunk c2,
         Event.chunk c3, Event.toggle false 1]).transcribe_calls =
      [c1 ++ c2 ++ c3] ∧
    (c1 ++ c2 ++ c3).length = 3072 := by
  constructor
  · have he : (sessionRun (initState "turbo" 1)
        [Event.start, Event.toggle true 0, Event.chunk c1, Event.chunk c2,
         Event.chunk c3, Event.toggle false 1]).transcribe_calls =
        [c1 ++ (c2 ++ (c3 ++ []))] := rfl
    rw [he]
    simp
  · simp [h1, h2, h3]

theorem C3_witness :
    (sessionRun (initState "turbo" 1)
        [Event.start, Event.toggle true 0, Event.chunk (List.replicate 1024 0),
         Event.chunk (List.replicate 1024 0), Event.chunk (List.replicate 1024 0),
         Event.toggle false 1]).transcribe_calls =
      [List.replicate 1024 (0 : Int) ++ List.replicate 1024 0 ++ List.replicate 1024 0] ∧
    (List.replicate 1024 (0 : Int) ++ List.replicate 1024 0 ++
      List.replicate 1024 0).length = 3072 :=
  C3 _ _ _ (List.length_replicate 1024 0) (List.length_replicate 1024 0)
    (List.length_replicate 1024 0)

/-- Claim C4: a toggle-off event arriving with an empty audio chunk buffer
hands nothing to the transcription worker; the buffer is left drained and
the handler returns. -/
theorem C4 (st : SessionState) (t : Nat) (h : st.audio_chunks = []) :
    (sessionStep st (Event.toggle false t)).transcribe_calls = st.transcribe_calls ∧
    (sessionStep st (Event.toggle false t)).audio_chunks = [] := by
  have hu : sessionStep st (Event.toggle false t) =
      stop_recording true
        (write_status { st with recording := false, recording_start_time := none }) := rfl
  rw [hu]
  simp [stop_recording, write_status, h]

theorem C4_witness :
    (sessionStep (initState "turbo" 1) (Event.toggle false 0)).transcribe_calls =
      (initState "turbo" 1).transcribe_calls ∧
    (sessionStep (initState "turbo" 1) (Event.toggle false 0)).audio_chunks = [] :=
  C4 (initState "turbo" 1) 0 rfl

/-- Claim C5: `DaemonManager.is_running` is a total function (no exception
escapes): a missing PID file yields false with the state untouched; an
unparsable PID file is deleted and false returned; a parsed pid whose
liveness probe fails leads to deletion of the PID file and false; and true
is returned only when the recorded pid answers the signal-0 probe. -/
theorem C5 (s : OsState) :
    (s.pidFile = none → is_running s = (false, s)) ∧
    (∀ c, s.pidFile = some c → parsePyInt (pyStrip c) = none →
      is_running s = (false, { s with pidFile := none })) ∧
    (∀ c pid, s.pidFile = some c → parsePyInt (pyStrip c) = some pid →
      s.live pid = false →
      is_running s = (false, { s with pidFile := none })) ∧
    ((is_running s).1 = true →
      ∃ c pid, s.pidFile = some c ∧ parsePyInt (pyStrip c) = some pid ∧
        kill0 s pid = KillResult.ok) := by
  refine ⟨?_, ?_, ?_, ?_⟩
  · intro h
    simp [is_running, h]
  · intro c hc hp
    simp [is_running, hc, hp]
  · intro c pid hc hp hl
    simp [is_running, hc, hp, kill0, hl]
  · intro h
    cases hf : s.pidFile with
    | none => simp [is_running, hf] at h
    | some c =>
      cases hp : parsePyInt (pyStrip c) with
      | none => simp [is_running, hf, hp] at h
      | some pid =>
        cases hk : kill0 s pid with
        | ok => exact ⟨c, pid, rfl, hp, hk⟩
        | noSuchProcess => simp [is_running, hf, hp, hk] at h
        | notPermitted => simp [is_running, hf, hp, hk] at h

theorem C5_witness :
    is_running { pidFile := some "99", live := fun _ => false, permitted := fun _ => true } =
      (false, { pidFile := none, live := fun _ => false, permitted := fun _ => true }) :=
  (C5 _).2.2.1 "99" 99 rfl rfl rfl

/-- Claim C6: `DaemonManager.stop_daemon` returns false when no pid is
recorded (missing PID file or unparsable content); returns false and removes
the stale PID file when the recorded process is already gone; and any normal
return is true exactly when the termination signal was delivered to a
recorded live pid. -/
theorem C6 (s : OsState) :
    (get_pid s = none → stop_daemon s = Except.ok (false, s)) ∧
    (∀ pid, get_pid s = some pid → s.live pid = false →
      stop_daemon s = Except.ok (false, { s with pidFile := none })) ∧
    (∀ b s2, stop_daemon s = Except.ok (b, s2) →
      (b = true ↔ ∃ pid, get_pid s = some pid ∧ kill0 s pid = KillResult.ok)) := by
  refine ⟨?_, ?_, ?_⟩
  · intro h
    simp [stop_daemon, h]
  · intro pid hp hl
    simp [stop_daemon, hp, kill0, hl]
  · intro b s2 hb
    cases hp : get_pid s with
    | none =>
      simp [stop_daemon, hp] at hb
      simp [hb.1, hp]
    | some pid =>
      cases hk : kill0 s pid with
      | ok =>
        simp [stop_daemon, hp, hk] at hb
        simp [hb.1, hp, hk]
      | noSuchProcess =>
        simp [stop_daemon, hp, hk] at hb
        simp [hb.1, hp, hk]
      | notPermitted =>
        simp [stop_daemon, hp, hk] at hb

theorem C6_witness :
    stop_daemon { pidFile := some "7", live := fun _ => false, permitted := fun _ => true } =
      Except.ok (false, { pidFile := none, live := fun _ => false, permitted := fun _ => true }) :=
  (C6 _).2.1 7 rfl rfl

/-- Claim C7: when a live daemon is already recorded (`is_running` true),
`run_daemon` returns exit code 1 and leaves the world unchanged: no PID file
write, no status record write, no session start. -/
theorem C7 (model : String) (pid : Nat) (w : DaemonWorld)
    (h : (is_running w.os).1 = true) :
    run_daemon model pid w = (some 1, w) := by
  have hf := is_running_true_fix w.os h
  simp [run_daemon, hf]

theorem C7_witness :
    run_daemon "turbo" 2
      { os := { pidFile := some "5", live := fun _ => true, permitted := fun _ => true },
        statusFile := none, sessionStarted := false, startRaises := false } =
      (some 1,
       { os := { pidFile := some "5", live := fun _ => true, permitted := fun _ => true },
         statusFile := none, sessionStarted := false, startRaises := false }) :=
  C7 "turbo" 2 _ rfl

/-- Claim C8: `type_text` passes a hard timeout of 10 seconds to its
injection subprocess and `type_key` passes 5 seconds; on a timeout or any
other injection failure each returns false, and both are total functions, so
no exception escapes to the caller. -/
theorem C8 (runProc : List String → Nat → SubprocResult)
    (path : String) (d : Int) (text key : String) :
    (∀ c ∈ (type_text runProc path d text).2, c.2 = 10) ∧
    (∀ c ∈ (type_key runProc path key).2, c.2 = 5) ∧
    ((runProc (typeTextCmd path d text) 10 = SubprocResult.timedOut ∨
      runProc (typeTextCmd path d text) 10 = SubprocResult.raised) →
      text ≠ "" → (type_text runProc path d text).1 = false) ∧
    ((runProc [path, "-k", key] 5 = SubprocResult.timedOut ∨
      runProc [path, "-k", key] 5 = SubprocResult.raised) →
      (type_key runProc path key).1 = false) := by
  refine ⟨?_, ?_, ?_, ?_⟩
  · intro c hc
    by_cases ht : text = ""
    · simp [type_text, ht] at hc
    · simp [type_text, ht] at hc
      rw [hc]
  · intro c hc
    simp [type_key] at hc
    rw [hc]
  · rintro (h | h) ht <;> simp [type_text, ht, h]
  · rintro (h | h) <;> simp [type_key, h]

theorem C8_witness :
    (type_text (fun _ _ => SubprocResult.timedOut) "wtype" 0 "hi").1 = false ∧
    (type_key (fun _ _ => SubprocResult.timedOut) "wtype" "Return").1 = false := by
  have h := C8 (fun _ _ => SubprocResult.timedOut) "wtype" 0 "hi" "Return"
  exact ⟨h.2.2.1 (Or.inl rfl) (by decide), h.2.2.2 (Or.inl rfl)⟩

/-- Claim C9: calling `start()` when `running` is already true is a strict
no-op: the state is returned unchanged, so in particular no engine load,
typer creation or hotkey registration happens (their counters are part of
the state). -/
theorem C9 (st : SessionState) (h : st.running = true) :
    sessionStep st Event.start = st := by
  simp [sessionStep, start_session, h]

theorem C9_witness :
    sessionStep (sessionRun (initState "turbo" 1) [Event.start]) Event.start =
      sessionRun (initState "turbo" 1) [Event.start] :=
  C9 _ rfl

/-- Claim C10: in a transcription worker run, an empty stripped result text
invokes neither the text injector nor the transcription callback; a
non-empty stripped text t is handed to the injector as t followed by one
trailing space while the callback receives t itself. -/
theorem C10 (resultText : String) (hasTyper hasCallback : Bool) :
    (pyStrip resultText = "" →
      transcribe_buffer resultText hasTyper hasCallback = { typed := [], callbacks := [] }) ∧
    (∀ t, pyStrip resultText = t → t ≠ "" →
      transcribe_buffer resultText hasTyper hasCallback =
        { typed := if hasTyper then [t ++ " "] else []
          callbacks := if hasCallback then [t] else [] }) := by
  constructor
  · intro h
    simp [transcribe_buffer, h]
  · intro t ht hne
    simp [transcribe_buffer, ht, hne]

theorem C10_witness :
    transcribe_buffer " hi " true true = { typed := ["hi "], callbacks := ["hi"] } :=
  (C10 " hi " true true).2 "hi" rfl (by decide)
